import Mathlib

/-!
Verification of the codespace connection layer: the readiness predicate,
the start/poll/connect flow of `ConnectToLiveshare` (with the exponential
backoff retry loop modelled as an explicit state machine over abstract
cancellation and deadline schedules), the local TCP listener helper, and
the RPC invoker's envelope translation.
-/

namespace Codespaces

/-- Connection credentials carried by a codespace record
(`api.Codespace.Connection`). -/
structure Connection where
  sessionID : String
  sessionToken : String
  relayEndpoint : String
  relaySAS : String
  hostPublicKeys : List String
deriving DecidableEq, Repr

/-- A codespace record as returned by the directory API
(`api.Codespace`): its name, its environment state (a string in the
source; `"Available"` is the distinguished ready state), and its
connection credentials. -/
structure Codespace where
  name : String
  state : String
  connection : Connection
deriving DecidableEq, Repr

/-- Modelled from the spec: the `api` package is not among the provided
sources; its constant for the Available environment state is the string
`"Available"` (spec section 3, EnvironmentState). -/
def CodespaceStateAvailable : String := "Available"

/-- The readiness predicate of `connectionReady` in
`internal/codespaces/codespaces.go`: all four credential fields non-empty
and the state equal to Available. -/
def connectionReady (codespace : Codespace) : Bool :=
  codespace.connection.sessionID != "" &&
  codespace.connection.sessionToken != "" &&
  codespace.connection.relayEndpoint != "" &&
  codespace.connection.relaySAS != "" &&
  codespace.state == CodespaceStateAvailable

/-- C1: for every codespace record, `connectionReady` holds iff all four
connection credential fields (session id, session token, relay endpoint,
relay shared-access credential) are non-empty and the state equals
Available; any single empty field or any other state makes the record not
ready. -/
theorem connectionReady_iff (codespace : Codespace) :
    connectionReady codespace = true ↔
      (codespace.connection.sessionID ≠ "" ∧
       codespace.connection.sessionToken ≠ "" ∧
       codespace.connection.relayEndpoint ≠ "" ∧
       codespace.connection.relaySAS ≠ "" ∧
       codespace.state = CodespaceStateAvailable) := by
  simp [connectionReady, Bool.and_eq_true, bne_iff_ne, beq_iff_eq, and_assoc]

/-- The directory API client interface (`apiClient` in
`internal/codespaces/codespaces.go`): it fetches a codespace record (the
first argument indexes successive `GetCodespace` calls, since the remote
record evolves over time) and starts a codespace. Errors are carried as
their message strings. -/
structure ApiClient where
  getCodespace : Nat → String → Bool → Except String Codespace
  startCodespace : String → Except String Unit

/-- The error text of Go's `context.Canceled`, returned by
`backoff.Retry` when the caller-supplied context is cancelled. -/
def contextCanceled : String := "context canceled"

/-- The transient error message of the readiness operation in
`ConnectToLiveshare`. -/
def notReadyMsg : String := "codespace not ready yet"

/-- The user-facing deadline error of `ConnectToLiveshare`. -/
def timedOutMsg : String := "timed out while waiting for the codespace to start"

/-- The `backoff.Retry` loop of `ConnectToLiveshare` with its readiness
operation inlined. `cancelled i` abstracts whether the caller-supplied
context is done by the checks following attempt `i`; `stop i` abstracts
whether the exponential backoff's `NextBackOff` reports `Stop` (its
`MaxElapsedTime` exhausted) at that point. Each attempt: if the current
record is ready the loop succeeds with it; otherwise the record is
re-fetched — a fetch failure is wrapped as a permanent
"error getting codespace" error ending the loop at once — and the loop
either ends with the context's cancellation error, ends with the
transient not-ready error when the backoff reports `Stop`, or sleeps and
retries. Returns the result together with the number of `GetCodespace`
calls made and the number of attempts used; `none` means the fuel ran
out before any of the loop's own exits fired. -/
def retryLoop (api : ApiClient) (cancelled stop : Nat → Bool) :
    Nat → Nat → Nat → Codespace → Option (Except String Codespace × Nat × Nat)
  | 0, _, _, _ => none
  | fuel + 1, i, g, cs =>
    if connectionReady cs then some (.ok cs, g, i + 1)
    else
      match api.getCodespace g cs.name true with
      | .error e => some (.error ("error getting codespace: " ++ e), g + 1, i + 1)
      | .ok cs' =>
        if cancelled i then some (.error contextCanceled, g + 1, i + 1)
        else if stop i then some (.error notReadyMsg, g + 1, i + 1)
        else retryLoop api cancelled stop fuel (i + 1) (g + 1) cs'

/-- The options handed to `liveshare.Connect` on success. -/
structure SessionOptions where
  sessionID : String
  sessionToken : String
  relaySAS : String
  relayEndpoint : String
  hostPublicKeys : List String
deriving DecidableEq, Repr

/-- The observable outcome of `ConnectToLiveshare`: the session options
handed to `liveshare.Connect` or the returned error, together with the
number of `StartCodespace` and `GetCodespace` calls issued. -/
structure ConnectOutcome where
  result : Except String SessionOptions
  startCalls : Nat
  getCalls : Nat
deriving Repr

/-- The part of `ConnectToLiveshare` after the start phase: run the retry
loop; on an error, return the fixed timed-out message when
`ctxBackoff.NextBackOff()` reports `Stop` (which it does both when the
deadline is exhausted and when the context is cancelled), else the loop's
error; on success, hand the freshest record's credentials to
`liveshare.Connect`. -/
def connectAfterStart (api : ApiClient) (cancelled stop : Nat → Bool)
    (fuel : Nat) (codespace : Codespace) (s : Nat) : Option ConnectOutcome :=
  match retryLoop api cancelled stop fuel 0 0 codespace with
  | none => none
  | some (.ok cs, g, _) =>
      some ⟨.ok ⟨cs.connection.sessionID, cs.connection.sessionToken,
        cs.connection.relaySAS, cs.connection.relayEndpoint,
        cs.connection.hostPublicKeys⟩, s, g⟩
  | some (.error e, g, a) =>
      if cancelled a || stop a then some ⟨.error timedOutMsg, s, g⟩
      else some ⟨.error e, s, g⟩

/-- `ConnectToLiveshare` of `internal/codespaces/codespaces.go`: if the
record's state is not Available, issue a `StartCodespace` request, whose
failure returns at once wrapped as "error starting codespace"; then run
the backoff retry loop and connect with the resulting credentials. -/
def ConnectToLiveshare (api : ApiClient) (cancelled stop : Nat → Bool)
    (fuel : Nat) (codespace : Codespace) : Option ConnectOutcome :=
  if codespace.state = CodespaceStateAvailable then
    connectAfterStart api cancelled stop fuel codespace 0
  else
    match api.startCodespace codespace.name with
    | .error e => some ⟨.error ("error starting codespace: " ++ e), 1, 0⟩
    | .ok _ => connectAfterStart api cancelled stop fuel codespace 1

/-- If the readiness operation never finds the codespace ready (every
fetch succeeds but yields a not-ready record), the retry loop runs until
the first attempt `k` at which the context is cancelled or the backoff
reports `Stop`, and ends there with the context's cancellation error or
the transient not-ready error respectively, having fetched once per
attempt. -/
theorem retryLoop_exit (api : ApiClient) (cancelled stop : Nat → Bool)
    (hapi : ∀ g n, ∃ cs, api.getCodespace g n true = .ok cs ∧ connectionReady cs = false) :
    ∀ fuel i g cs k, connectionReady cs = false → i ≤ k → k < i + fuel →
      (∀ j, i ≤ j → j < k → cancelled j = false ∧ stop j = false) →
      (cancelled k = true ∨ stop k = true) →
      retryLoop api cancelled stop fuel i g cs =
        some (.error (if cancelled k then contextCanceled else notReadyMsg),
          g + (k - i) + 1, k + 1) := by
  intro fuel
  induction fuel with
  | zero => intro i g cs k _ hik hk _ _; omega
  | succ f ih =>
    intro i g cs k hready hik hk hmid hexit
    obtain ⟨cs', hget, hready'⟩ := hapi g cs.name
    rcases Nat.eq_or_lt_of_le hik with heq | hlt
    · subst heq
      rcases hexit with hc | hs
      · simp [retryLoop, hready, hget, hc]
      · by_cases hc : cancelled i
        · simp [retryLoop, hready, hget, hc]
        · simp [retryLoop, hready, hget, hc, hs]
    · obtain ⟨hci, hsi⟩ := hmid i (Nat.le_refl i) hlt
      have hrec := ih (i + 1) (g + 1) cs' k hready' hlt (by omega)
        (fun j hj1 hj2 => hmid j (by omega) hj2) hexit
      simp only [retryLoop, hready, hget, hci, hsi, Bool.false_eq_true, if_false]
      rw [hrec]
      simp only [Option.some.injEq, Prod.mk.injEq]
      exact ⟨trivial, by omega, trivial⟩

/-- C4: when the retry loop exhausts its maximum elapsed time (the
backoff reports `Stop` from attempt `N` on) while the codespace is still
not ready, `ConnectToLiveshare` returns the fixed user-facing
"timed out while waiting for the codespace to start" error, distinct
from the last transient not-ready error. -/
theorem connect_deadline_times_out (api : ApiClient) (cancelled : Nat → Bool)
    (N fuel : Nat) (cs : Codespace)
    (hapi : ∀ g n, ∃ cs', api.getCodespace g n true = .ok cs' ∧ connectionReady cs' = false)
    (hcancel : ∀ j, cancelled j = false)
    (hready : connectionReady cs = false)
    (hstart : api.startCodespace cs.name = .ok ())
    (hfuel : N < fuel) :
    ∃ o, ConnectToLiveshare api cancelled (fun j => decide (N ≤ j)) fuel cs = some o ∧
      o.result = .error timedOutMsg ∧ o.getCalls = N + 1 ∧ timedOutMsg ≠ notReadyMsg := by
  have hloop := retryLoop_exit api cancelled (fun j => decide (N ≤ j)) hapi fuel 0 0 cs N
    hready (Nat.zero_le N) (by omega)
    (fun j hj1 hj2 => ⟨hcancel j, by simpa using Nat.not_le_of_lt hj2⟩)
    (Or.inr (by simp))
  simp only [hcancel, Bool.false_eq_true, if_false, Nat.sub_zero, Nat.zero_add] at hloop
  rcases Decidable.em (cs.state = CodespaceStateAvailable) with hst | hst
  · refine ⟨⟨.error timedOutMsg, 0, N + 1⟩, ?_, rfl, rfl, by decide⟩
    unfold ConnectToLiveshare
    rw [if_pos hst]
    unfold connectAfterStart
    rw [hloop]
    simp [hcancel, Nat.le_succ]
  · refine ⟨⟨.error timedOutMsg, 1, N + 1⟩, ?_, rfl, rfl, by decide⟩
    unfold ConnectToLiveshare
    rw [if_neg hst, hstart]
    unfold connectAfterStart
    rw [hloop]
    simp [hcancel, Nat.le_succ]

/-- C3 (amended): cancelling the caller-supplied context during the
readiness wait stops the polling immediately (exactly `k + 1` fetches
when the context becomes done at checkpoint `k`), and the retry
primitive yields the context's cancellation error; but `ConnectToLiveshare`
then reports the same fixed "timed out while waiting for the codespace
to start" error as deadline exhaustion, because a cancelled context makes
the backoff's `NextBackOff` report `Stop` — so the surfaced error is not
the cancellation error. -/
theorem connect_cancelled_reports_timeout (api : ApiClient) (stop : Nat → Bool)
    (k fuel : Nat) (cs : Codespace)
    (hapi : ∀ g n, ∃ cs', api.getCodespace g n true = .ok cs' ∧ connectionReady cs' = false)
    (hready : connectionReady cs = false)
    (hstart : api.startCodespace cs.name = .ok ())
    (hstop : ∀ j, j < k → stop j = false)
    (hfuel : k < fuel) :
    ∃ o, ConnectToLiveshare api (fun j => decide (k ≤ j)) stop fuel cs = some o ∧
      o.result = .error timedOutMsg ∧ o.getCalls = k + 1 ∧ timedOutMsg ≠ contextCanceled := by
  have hloop := retryLoop_exit api (fun j => decide (k ≤ j)) stop hapi fuel 0 0 cs k
    hready (Nat.zero_le k) (by omega)
    (fun j hj1 hj2 => ⟨by simpa using Nat.not_le_of_lt hj2, hstop j hj2⟩)
    (Or.inl (by simp))
  simp only [Nat.le_refl, decide_True, if_true, Nat.sub_zero, Nat.zero_add] at hloop
  rcases Decidable.em (cs.state = CodespaceStateAvailable) with hst | hst
  · refine ⟨⟨.error timedOutMsg, 0, k + 1⟩, ?_, rfl, rfl, by decide⟩
    unfold ConnectToLiveshare
    rw [if_pos hst]
    unfold connectAfterStart
    rw [hloop]
    simp [Nat.le_succ]
  · refine ⟨⟨.error timedOutMsg, 1, k + 1⟩, ?_, rfl, rfl, by decide⟩
    unfold ConnectToLiveshare
    rw [if_neg hst, hstart]
    unfold connectAfterStart
    rw [hloop]
    simp [Nat.le_succ]

/-- A codespace record in the Starting state with no credentials. -/
def startingCodespace : Codespace :=
  ⟨"codespace-a", "Starting", ⟨"", "", "", "", []⟩⟩

/-- An API client whose fetches always return the starting record and
whose start request succeeds. -/
def startingApi : ApiClient :=
  ⟨fun _ _ _ => .ok startingCodespace, fun _ => .ok ()⟩

/-- C3 (counterexample): with a context that is cancelled from checkpoint
1 on while the deadline is nowhere near exhausted, `ConnectToLiveshare`
returns the "timed out while waiting for the codespace to start" error —
not a cancellation error distinct from the deadline-exceeded one. -/
theorem connect_cancelled_counterexample :
    ConnectToLiveshare startingApi (fun j => decide (1 ≤ j)) (fun _ => false) 5
      startingCodespace =
      some ⟨.error "timed out while waiting for the codespace to start", 1, 2⟩ := rfl

/-- C3 (witness): the amended statement at a concrete input — the context
becomes done at checkpoint 2, the loop stops after exactly 3 fetches, and
the surfaced error is the timed-out message. -/
theorem connect_cancelled_reports_timeout_witness :
    ∃ o, ConnectToLiveshare startingApi (fun j => decide (2 ≤ j)) (fun _ => false) 7
        startingCodespace = some o ∧
      o.result = .error timedOutMsg ∧ o.getCalls = 3 ∧ timedOutMsg ≠ contextCanceled :=
  connect_cancelled_reports_timeout startingApi (fun _ => false) 2 7 startingCodespace
    (fun g n => ⟨startingCodespace, rfl, by decide⟩) (by decide) rfl
    (fun j hj => rfl) (by decide)

/-- C4 (witness): the deadline statement at a concrete input — the
backoff reports `Stop` from attempt 2 on, the codespace never becomes
ready, and `ConnectToLiveshare` returns the timed-out error after 3
fetches. -/
theorem connect_deadline_times_out_witness :
    ∃ o, ConnectToLiveshare startingApi (fun _ => false) (fun j => decide (2 ≤ j)) 6
        startingCodespace = some o ∧
      o.result = .error timedOutMsg ∧ o.getCalls = 3 ∧ timedOutMsg ≠ notReadyMsg :=
  connect_deadline_times_out startingApi (fun _ => false) 2 6 startingCodespace
    (fun g n => ⟨startingCodespace, rfl, by decide⟩) (fun j => rfl) (by decide) rfl
    (by decide)

/-- C5: if the record handed to `ConnectToLiveshare` is already ready, no
`StartCodespace` call and no `GetCodespace` re-fetch are issued — zero
round trips to the API client — and the session is opened with that very
record's connection credentials. -/
theorem connect_already_ready (api : ApiClient) (cancelled stop : Nat → Bool)
    (fuel : Nat) (cs : Codespace) (hready : connectionReady cs = true) :
    ConnectToLiveshare api cancelled stop (fuel + 1) cs =
      some ⟨.ok ⟨cs.connection.sessionID, cs.connection.sessionToken,
        cs.connection.relaySAS, cs.connection.relayEndpoint,
        cs.connection.hostPublicKeys⟩, 0, 0⟩ := by
  have hst : cs.state = CodespaceStateAvailable := by
    simp only [connectionReady, Bool.and_eq_true, beq_iff_eq] at hready
    exact hready.2
  unfold ConnectToLiveshare
  rw [if_pos hst]
  unfold connectAfterStart
  simp [retryLoop, hready]

/-- A fully populated Available codespace record. -/
def readyCodespace : Codespace :=
  ⟨"codespace-b", "Available",
    ⟨"sid", "stok", "https://relay.example", "sas", ["key1"]⟩⟩

/-- C5 (witness): the already-ready statement at a concrete ready record:
the outcome carries its credentials and zero API calls. -/
theorem connect_already_ready_witness :
    ConnectToLiveshare startingApi (fun _ => false) (fun _ => false) 3 readyCodespace =
      some ⟨.ok ⟨"sid", "stok", "sas", "https://relay.example", ["key1"]⟩, 0, 0⟩ :=
  connect_already_ready startingApi (fun _ => false) (fun _ => false) 2 readyCodespace
    (by decide)

/-- C6: if the record's state is not Available and the start request
fails, `ConnectToLiveshare` returns at once — one `StartCodespace` call,
no `GetCodespace` call, no session — with the failure wrapped as
"error starting codespace". -/
theorem connect_start_failure (api : ApiClient) (cancelled stop : Nat → Bool)
    (fuel : Nat) (cs : Codespace) (e : String)
    (hstate : cs.state ≠ CodespaceStateAvailable)
    (hstart : api.startCodespace cs.name = .error e) :
    ConnectToLiveshare api cancelled stop fuel cs =
      some ⟨.error ("error starting codespace: " ++ e), 1, 0⟩ := by
  unfold ConnectToLiveshare
  rw [if_neg hstate, hstart]

/-- An API client whose start request fails. -/
def failStartApi : ApiClient :=
  ⟨fun _ _ _ => .ok startingCodespace, fun _ => .error "service unavailable"⟩

/-- C6 (witness): the start-failure statement at a concrete input. -/
theorem connect_start_failure_witness :
    ConnectToLiveshare failStartApi (fun _ => false) (fun _ => false) 5 startingCodespace =
      some ⟨.error "error starting codespace: service unavailable", 1, 0⟩ :=
  connect_start_failure failStartApi (fun _ => false) (fun _ => false) 5
    startingCodespace "service unavailable" (by decide) rfl

/-- C7: a failing `GetCodespace` re-fetch during the wait loop is
permanent: the loop ends at that very attempt — one fetch, however much
fuel remains — and the failure is propagated wrapped as
"error getting codespace", provided neither cancellation nor the deadline
turns it into the timed-out message at the exit check. -/
theorem connect_fetch_failure_permanent (api : ApiClient) (cancelled stop : Nat → Bool)
    (fuel : Nat) (cs : Codespace) (e : String)
    (hstate : cs.state = CodespaceStateAvailable)
    (hready : connectionReady cs = false)
    (hget : api.getCodespace 0 cs.name true = .error e)
    (hc : cancelled 1 = false) (hs : stop 1 = false) :
    ConnectToLiveshare api cancelled stop (fuel + 1) cs =
      some ⟨.error ("error getting codespace: " ++ e), 0, 1⟩ := by
  unfold ConnectToLiveshare
  rw [if_pos hstate]
  unfold connectAfterStart
  simp [retryLoop, hready, hget, hc, hs]

/-- An API client whose fetches always fail. -/
def failFetchApi : ApiClient :=
  ⟨fun _ _ _ => .error "http 500", fun _ => .ok ()⟩

/-- An Available record whose credentials are still empty. -/
def staleAvailableCodespace : Codespace :=
  ⟨"codespace-c", "Available", ⟨"", "", "", "", []⟩⟩

/-- C7 (witness): the permanent fetch-failure statement at a concrete
input: one fetch, wrapped error, despite plenty of remaining fuel. -/
theorem connect_fetch_failure_witness :
    ConnectToLiveshare failFetchApi (fun _ => false) (fun _ => false) 9
      staleAvailableCodespace =
      some ⟨.error "error getting codespace: http 500", 0, 1⟩ :=
  connect_fetch_failure_permanent failFetchApi (fun _ => false) (fun _ => false) 8
    staleAvailableCodespace "http 500" rfl (by decide) rfl rfl rfl

end Codespaces

namespace Rpc

open Codespaces

/-- Modelled from the spec: the rpc package's `connectedEventName`
constant — the activity tag fired on connection (spec section 3,
ActivityEvent; referenced by `verifyNotifyCodespaceOfClientActivity` in
the rpc tests) — is the string `"connected"`. -/
def connectedEventName : String := "connected"

/-- The envelope of the remote shell-bootstrap call
(`ssh.StartRemoteServerResponse` in the rpc tests): the server port as a
string, the user, a message, and the success flag. -/
structure StartRemoteServerResponse where
  serverPort : String
  user : String
  message : String
  result : Bool
deriving DecidableEq, Repr

/-- Decimal parsing of one character after another: the accumulator dies
on the first non-digit character. -/
def parseDecimal (cs : List Char) : Option Nat :=
  cs.foldl
    (fun acc c =>
      match acc with
      | none => none
      | some n => if c.isDigit then some (n * 10 + (c.toNat - 48)) else none)
    (some 0)

/-- Go's `strconv.Atoi` restricted to unsigned decimals, the parsing the
invoker applies to numeric payload fields that arrive as text: the
string must be non-empty and all digits. -/
def atoi (s : String) : Option Nat :=
  if s.data.isEmpty then none else parseDecimal s.data

/-- Modelled from the spec: the rpc invoker's `StartSSHServer` method is
not among the provided sources (only its tests are). Per the spec's
uniform envelope translation (section 4.6) and the messages pinned by
`TestStartSSHServerSuccess` and `TestStartSSHServerFailure`: a
`result = false` envelope yields zero-valued payload results and the
error "failed to start SSH server: <message>"; a `result = true`
envelope yields the parsed numeric port and the user with no error, a
port parse failure being surfaced as an error itself. The error is the
third component, `none` meaning a nil error. -/
def StartSSHServer (resp : StartRemoteServerResponse) : Nat × String × Option String :=
  if resp.result then
    match atoi resp.serverPort with
    | none => (0, "", some ("failed to parse port: " ++ resp.serverPort))
    | some p => (p, resp.user, none)
  else (0, "", some ("failed to start SSH server: " ++ resp.message))

/-- C2: the envelope translation of the invoker — a failure envelope
yields port 0, an empty user and the error
"failed to start SSH server: <message>"; a success envelope yields the
port parsed from its textual field, the user, and a nil error; in
particular a success envelope carrying serverPort "1234" and user "test"
yields (1234, "test", nil). -/
theorem startSSHServer_envelope (resp : StartRemoteServerResponse) :
    (resp.result = false →
      StartSSHServer resp =
        (0, "", some ("failed to start SSH server: " ++ resp.message))) ∧
    (∀ p, resp.result = true → atoi resp.serverPort = some p →
      StartSSHServer resp = (p, resp.user, none)) := by
  constructor
  · intro hr
    simp [StartSSHServer, hr]
  · intro p hr hp
    simp [StartSSHServer, hr, hp]

/-- C2 (witness): both branches of the envelope translation at the
concrete envelopes used by the rpc tests. -/
theorem startSSHServer_envelope_witness :
    StartSSHServer ⟨"1234", "test", "", true⟩ = (1234, "test", none) ∧
    StartSSHServer ⟨"1234", "test", "error message", false⟩ =
      (0, "", some "failed to start SSH server: error message") :=
  ⟨(startSSHServer_envelope ⟨"1234", "test", "", true⟩).2 1234 rfl rfl,
   (startSSHServer_envelope ⟨"1234", "test", "error message", false⟩).1 rfl⟩

/-- The envelope of the remote rebuild call
(`codespace.RebuildContainerResponse` in the rpc tests). -/
structure RebuildContainerResponse where
  rebuildContainer : Bool
deriving DecidableEq, Repr

/-- Modelled from the spec: the rpc invoker's `RebuildContainer` method
is not among the provided sources (only its tests are). Per the spec
(section 8, property 10) and the message pinned by
`TestRebuildContainerFailure`: an envelope with `rebuildContainer = false`
yields the fixed error "couldn't rebuild codespace"; an envelope with
`rebuildContainer = true` yields a nil error, for incremental
(`full = false`) and full (`full = true`) rebuilds alike — the flag only
shapes the request. -/
def RebuildContainer (full : Bool) (resp : RebuildContainerResponse) : Option String :=
  if resp.rebuildContainer then none
  else some "couldn\x27t rebuild codespace"

/-- C8: a `rebuildContainer = false` envelope makes `RebuildContainer`
return the fixed error "couldn't rebuild codespace"; a
`rebuildContainer = true` envelope makes it return nil, for both
incremental and full rebuilds. -/
theorem rebuildContainer_envelope (full : Bool) (resp : RebuildContainerResponse) :
    (resp.rebuildContainer = false →
      RebuildContainer full resp = some "couldn\x27t rebuild codespace") ∧
    (resp.rebuildContainer = true → RebuildContainer full resp = none) := by
  constructor
  · intro hr
    simp [RebuildContainer, hr]
  · intro hr
    simp [RebuildContainer, hr]

/-- C8 (witness): the rebuild translation at the concrete envelopes of
the rpc tests, for incremental and full rebuilds. -/
theorem rebuildContainer_envelope_witness :
    RebuildContainer true ⟨false⟩ = some "couldn\x27t rebuild codespace" ∧
    RebuildContainer false ⟨true⟩ = none ∧
    RebuildContainer true ⟨true⟩ = none :=
  ⟨(rebuildContainer_envelope true ⟨false⟩).1 rfl,
   (rebuildContainer_envelope false ⟨true⟩).2 rfl,
   (rebuildContainer_envelope true ⟨true⟩).2 rfl⟩

/-- The collaborators of the rpc invoker: whether the gRPC channel over
the tunnel comes up, the client-activity notification service, and the
envelope the remote shell-bootstrap service answers with. -/
structure RpcEnv where
  channelOk : Bool
  notify : String → Except String Unit
  sshResp : StartRemoteServerResponse

/-- Modelled from the spec: `CreateInvoker` is not among the provided
sources (only its tests are). Per the spec (section 4.6): once the
channel is usable, construction fires the client-activity notification
with the "connected" event name, fire-and-forget — the notification's
own result is recorded (for logging) but construction succeeds
regardless of it. The constructed invoker is represented by the list of
activity notifications it fired, each with the result the notification
service gave. -/
def CreateInvoker (env : RpcEnv) : Except String (List (String × Except String Unit)) :=
  if env.channelOk then
    .ok [(connectedEventName, env.notify connectedEventName)]
  else .error "error connecting to internal server"

/-- A primary call issued through the invoker: it reaches the remote
shell-bootstrap service and translates its envelope, independently of
the activity-notification service. -/
def invokerStartSSHServer (env : RpcEnv) : Nat × String × Option String :=
  StartSSHServer env.sshResp

/-- C9: once the channel is usable, `CreateInvoker` fires the
client-activity notification carrying the "connected" event name and
succeeds whatever that notification's result — even a failing
notification service does not fail construction — and the return value
of a primary call such as StartSSHServer is unchanged by swapping the
notification service for any other. -/
theorem createInvoker_notify_isolation (ch : Bool)
    (n m : String → Except String Unit) (resp : StartRemoteServerResponse)
    (hch : ch = true) :
    (∃ r, CreateInvoker ⟨ch, n, resp⟩ = .ok [(connectedEventName, r)]) ∧
    invokerStartSSHServer ⟨ch, n, resp⟩ = invokerStartSSHServer ⟨ch, m, resp⟩ := by
  subst hch
  exact ⟨⟨n connectedEventName, rfl⟩, rfl⟩

/-- C9 (witness): with a notification service that always fails,
construction still succeeds, the "connected" notification was fired, and
the primary call's result equals the one under an always-succeeding
notification service. -/
theorem createInvoker_notify_isolation_witness :
    (∃ r, CreateInvoker ⟨true, fun _ => .error "notify failed", ⟨"1234", "test", "", true⟩⟩ =
      .ok [(connectedEventName, r)]) ∧
    invokerStartSSHServer ⟨true, fun _ => .error "notify failed", ⟨"1234", "test", "", true⟩⟩ =
      invokerStartSSHServer ⟨true, fun _ => .ok (), ⟨"1234", "test", "", true⟩⟩ :=
  createInvoker_notify_isolation true (fun _ => .error "notify failed")
    (fun _ => .ok ()) ⟨"1234", "test", "", true⟩ rfl

end Rpc

namespace Net

/-- A resolved TCP address: host and port (`net.TCPAddr`). -/
structure TCPAddr where
  ip : String
  port : Nat
deriving DecidableEq, Repr

/-- A live TCP listener together with the address the OS actually bound
it to (`net.TCPListener` with its `Addr()`). -/
structure TCPListener where
  boundAddr : TCPAddr
deriving DecidableEq, Repr

/-- The operating system's networking calls used by `ListenTCP`:
`net.ResolveTCPAddr` on an address string and `net.ListenTCP` on a
resolved address, each fallible. -/
structure NetOS where
  resolveTCPAddr : String → Except String TCPAddr
  listenTCP : TCPAddr → Except String TCPListener

/-- `ListenTCP` of `internal/codespaces/codespaces.go`: resolve the
loopback address string "127.0.0.1:<port>", failing as
"failed to build tcp address"; bind it, failing as
"failed to listen to local port over tcp"; on success return the
listener and the port read back from the listener's bound address. -/
def ListenTCP (os : NetOS) (port : Nat) : Except String (TCPListener × Nat) :=
  match os.resolveTCPAddr ("127.0.0.1:" ++ toString port) with
  | .error e => .error ("failed to build tcp address: " ++ e)
  | .ok addr =>
    match os.listenTCP addr with
    | .error e => .error ("failed to listen to local port over tcp: " ++ e)
    | .ok listener => .ok (listener, listener.boundAddr.port)

/-- C10: the address `ListenTCP` resolves is always the loopback string
"127.0.0.1:<requested port>"; a resolution failure carries the
"failed to build tcp address" message, a bind failure the
"failed to listen to local port over tcp" message; and on success the
returned port is read back from the live listener's bound address, never
assumed equal to the requested port. -/
theorem listenTCP_spec (os : NetOS) (port : Nat) :
    (∀ e, os.resolveTCPAddr ("127.0.0.1:" ++ toString port) = .error e →
      ListenTCP os port = .error ("failed to build tcp address: " ++ e)) ∧
    (∀ a e, os.resolveTCPAddr ("127.0.0.1:" ++ toString port) = .ok a →
      os.listenTCP a = .error e →
      ListenTCP os port = .error ("failed to listen to local port over tcp: " ++ e)) ∧
    (∀ a l, os.resolveTCPAddr ("127.0.0.1:" ++ toString port) = .ok a →
      os.listenTCP a = .ok l →
      ListenTCP os port = .ok (l, l.boundAddr.port)) := by
  refine ⟨fun e hres => ?_, fun a e hres hlis => ?_, fun a l hres hlis => ?_⟩
  · simp [ListenTCP, hres]
  · simp [ListenTCP, hres, hlis]
  · simp [ListenTCP, hres, hlis]

/-- An operating system that resolves loopback address strings exactly
and, asked for port 0, binds an ephemeral port of its own choosing —
here 49152 — while failing to bind port 80. -/
def ephemeralOS : NetOS :=
  ⟨fun s =>
    if s = "127.0.0.1:0" then .ok ⟨"127.0.0.1", 0⟩
    else if s = "127.0.0.1:80" then .ok ⟨"127.0.0.1", 80⟩
    else .error "unknown address",
   fun a =>
    if a.port = 0 then .ok ⟨⟨"127.0.0.1", 49152⟩⟩
    else .error "permission denied"⟩

/-- C10 (witness): asking the concrete OS model for port 0 returns the
OS-assigned ephemeral port 49152 read back from the listener — not the
requested 0 — and asking for port 80 fails with the bind message. -/
theorem listenTCP_spec_witness :
    ListenTCP ephemeralOS 0 = .ok (⟨⟨"127.0.0.1", 49152⟩⟩, 49152) ∧
    ListenTCP ephemeralOS 80 =
      .error "failed to listen to local port over tcp: permission denied" :=
  ⟨(listenTCP_spec ephemeralOS 0).2.2 ⟨"127.0.0.1", 0⟩ ⟨⟨"127.0.0.1", 49152⟩⟩ rfl rfl,
   (listenTCP_spec ephemeralOS 80).2.1 ⟨"127.0.0.1", 80⟩ "permission denied" rfl rfl⟩

end Net
